import Mathlib

/-!
Shallow embedding of the numerical core of `module_user_guide.ipynb`
(a simplified scVI variational autoencoder built twice: once as a manual
vanilla-PyTorch module `MyModule`, once as a Pyro module `MyPyroModule`).

Tensors are embedded as functions `Fin n → ℝ`; batches as
`Fin batch → Fin features → ℝ`.  Floating point is idealized as ℝ, so
`torch.log`, `torch.exp`, `torch.sqrt`, softmax, and the negative-binomial
log-probability become their real-analytic counterparts.  Stochastic
draws (`rsample`) are embedded by passing the standard-normal noise vector
explicitly, exactly the reparameterized form `loc + scale * noise` that
torch's `Normal.rsample` computes.
-/

open Finset

/-- ReLU nonlinearity, `torch.nn.ReLU`. -/
def relu (t : ℝ) : ℝ := max t 0

/-- Row-wise softmax, `torch.nn.Softmax(dim=-1)` applied to one row. -/
noncomputable def softmaxRow {n : ℕ} (v : Fin n → ℝ) : Fin n → ℝ :=
  fun i => Real.exp (v i) / ∑ j, Real.exp (v j)

/-- Parameters of the two affine layers of `MyNeuralNet.neural_net`
(`Linear(n_input, 128)`, `ReLU`, `Linear(128, n_output)`). -/
structure NetParams (nIn nOut : ℕ) where
  W1 : Fin 128 → Fin nIn → ℝ
  b1 : Fin 128 → ℝ
  W2 : Fin nOut → Fin 128 → ℝ
  b2 : Fin nOut → ℝ

/-- The `torch.nn.Sequential(Linear, ReLU, Linear)` body of `MyNeuralNet`,
applied to one row. -/
noncomputable def NetParams.apply {nIn nOut : ℕ} (p : NetParams nIn nOut)
    (x : Fin nIn → ℝ) : Fin nOut → ℝ :=
  fun o => (∑ h, p.W2 o h * relu ((∑ i, p.W1 h i * x i) + p.b1 h)) + p.b2 o

/-- The value stored in `MyNeuralNet.transformation`: `Softmax(dim=-1)`,
`torch.exp`, or Python `None`. -/
inductive Transformation where
  | softmax
  | exp
  | none
deriving DecidableEq

/-- Applying the stored transformation; `Transformation.none` is skipped by
the Python truthiness test `if self.transformation:`. -/
noncomputable def Transformation.apply {n : ℕ} :
    Transformation → (Fin n → ℝ) → Fin n → ℝ
  | .softmax, v => softmaxRow v
  | .exp, v => fun i => Real.exp (v i)
  | .none, v => v

/-- `MyNeuralNet`: the sequential body together with the configured final
nonlinearity. -/
structure MyNeuralNet (nIn nOut : ℕ) where
  neural_net : NetParams nIn nOut
  transformation : Transformation

/-- `MyNeuralNet.__init__`: sets `transformation = None`, overridden to
softmax when `link_var == "softmax"` and to exp when `link_var == "exp"`.
No other value of `link_var` is inspected and no validation occurs; the
constructor is total.  The layer weights are taken as an argument (the
source initializes them randomly). -/
def MyNeuralNet.init {nIn nOut : ℕ} (p : NetParams nIn nOut)
    (link_var : String) : MyNeuralNet nIn nOut :=
  { neural_net := p
    transformation :=
      if link_var = "softmax" then Transformation.softmax
      else if link_var = "exp" then Transformation.exp
      else Transformation.none }

/-- `MyNeuralNet.forward`: run the sequential body, then the final
transformation when one is configured. -/
noncomputable def MyNeuralNet.forward {nIn nOut : ℕ} (net : MyNeuralNet nIn nOut)
    (x : Fin nIn → ℝ) : Fin nOut → ℝ :=
  net.transformation.apply (net.neural_net.apply x)

/-- Log of the sigmoid function, `torch.nn.functional.logsigmoid`. -/
noncomputable def logsigmoid (t : ℝ) : ℝ := -Real.log (1 + Real.exp (-t))

/-- `torch.lgamma`, idealized as `log ∘ Gamma`. -/
noncomputable def lgamma (x : ℝ) : ℝ := Real.log (Real.Gamma x)

open Classical in
/-- `torch.distributions.NegativeBinomial(total_count, logits).log_prob(value)`:
`total_count * logsigmoid(-logits) + value * logsigmoid(logits)` minus the
log-normalization `-lgamma(total_count+value) + lgamma(1+value) +
lgamma(total_count)`, with the normalization zeroed when
`total_count + value == 0`. -/
noncomputable def NegativeBinomial.log_prob (total_count logits value : ℝ) : ℝ :=
  total_count * logsigmoid (-logits) + value * logsigmoid logits
    - (if total_count + value = 0 then 0
       else -lgamma (total_count + value) + lgamma (1 + value) + lgamma total_count)

/-- `torch.distributions.kl.kl_divergence` for a pair of Normals
(`_kl_normal_normal`): with `vr = (p.scale / q.scale)^2` and
`t1 = ((p.loc - q.loc) / q.scale)^2` it returns
`0.5 * (vr + t1 - 1 - vr.log())`. -/
noncomputable def kl_normal_normal (p_loc p_scale q_loc q_scale : ℝ) : ℝ :=
  0.5 * ((p_scale / q_scale) ^ 2 + ((p_loc - q_loc) / q_scale) ^ 2 - 1
    - Real.log ((p_scale / q_scale) ^ 2))

/-- Parameter state of `MyModule` (and of `MyPyroModule`, whose `__init__`
creates the identical four attributes): decoder, per-feature log-dispersion,
mean encoder, variance encoder. -/
structure MyModule (n_input n_latent : ℕ) where
  decoder_params : NetParams n_latent n_input
  log_theta : Fin n_input → ℝ
  mean_encoder_params : NetParams n_input n_latent
  var_encoder_params : NetParams n_input n_latent

/-- `self.decoder = MyNeuralNet(n_latent, n_input, "softmax")`. -/
def MyModule.decoder {nI nL : ℕ} (M : MyModule nI nL) : MyNeuralNet nL nI :=
  MyNeuralNet.init M.decoder_params "softmax"

/-- `self.mean_encoder = MyNeuralNet(n_input, n_latent, "none")`. -/
def MyModule.mean_encoder {nI nL : ℕ} (M : MyModule nI nL) : MyNeuralNet nI nL :=
  MyNeuralNet.init M.mean_encoder_params "none"

/-- `self.var_encoder = MyNeuralNet(n_input, n_latent, "exp")`. -/
def MyModule.var_encoder {nI nL : ℕ} (M : MyModule nI nL) : MyNeuralNet nI nL :=
  MyNeuralNet.init M.var_encoder_params "exp"

/-- The dictionary returned by `MyModule.inference`:
`dict(qz_m=qz_m, qz_v=qz_v, z=z)` — exactly these three fields. -/
structure InferenceOutputs (B L : ℕ) where
  qz_m : Fin B → Fin L → ℝ
  qz_v : Fin B → Fin L → ℝ
  z : Fin B → Fin L → ℝ

/-- `MyModule.inference`: `x_ = log(1 + x)`; `qz_m = mean_encoder(x_)`;
`qz_v = var_encoder(x_)`; `z = Normal(qz_m, sqrt(qz_v)).rsample()`.
The reparameterized sample is embedded with the standard-normal draw
`noise` passed explicitly: torch's `rsample` computes
`loc + scale * eps`, here `qz_m + sqrt(qz_v) * noise`. -/
noncomputable def MyModule.inference {nI nL B : ℕ} (M : MyModule nI nL)
    (x : Fin B → Fin nI → ℝ) (noise : Fin B → Fin nL → ℝ) :
    InferenceOutputs B nL :=
  let x_ : Fin B → Fin nI → ℝ := fun b g => Real.log (1 + x b g)
  let qz_m : Fin B → Fin nL → ℝ := fun b => M.mean_encoder.forward (x_ b)
  let qz_v : Fin B → Fin nL → ℝ := fun b => M.var_encoder.forward (x_ b)
  let z : Fin B → Fin nL → ℝ :=
    fun b l => qz_m b l + Real.sqrt (qz_v b l) * noise b l
  { qz_m := qz_m, qz_v := qz_v, z := z }

/-- The dictionary returned by `MyModule._get_generative_input`:
the latent sample `z` and the per-row library size. -/
structure GenerativeInput (B L : ℕ) where
  z : Fin B → Fin L → ℝ
  library : Fin B → ℝ

/-- `MyModule._get_generative_input`: takes `z` from the inference outputs
and computes `library = torch.sum(x, dim=1, keepdim=True)`. -/
noncomputable def MyModule.get_generative_input {nI nL B : ℕ}
    (x : Fin B → Fin nI → ℝ) (inference_outputs : InferenceOutputs B nL) :
    GenerativeInput B nL :=
  { z := inference_outputs.z, library := fun b => ∑ g, x b g }

/-- The dictionary returned by `MyModule.generative`:
`dict(px_scale=px_scale, theta=theta, px_rate=px_rate)`. -/
structure GenerativeOutputs (B G : ℕ) where
  px_scale : Fin B → Fin G → ℝ
  theta : Fin G → ℝ
  px_rate : Fin B → Fin G → ℝ

/-- `MyModule.generative`: `px_scale = decoder(z)`;
`px_rate = library * px_scale`; `theta = exp(log_theta)`. -/
noncomputable def MyModule.generative {nI nL B : ℕ} (M : MyModule nI nL)
    (z : Fin B → Fin nL → ℝ) (library : Fin B → ℝ) :
    GenerativeOutputs B nI :=
  let px_scale : Fin B → Fin nI → ℝ := fun b => M.decoder.forward (z b)
  let px_rate : Fin B → Fin nI → ℝ := fun b g => library b * px_scale b g
  let theta : Fin nI → ℝ := fun g => Real.exp (M.log_theta g)
  { px_scale := px_scale, theta := theta, px_rate := px_rate }

/-- The `LossRecorder(loss, -log_lik, kl_divergence, 0.0)` returned by
`MyModule.loss`. -/
structure LossRecorder (B : ℕ) where
  loss : ℝ
  reconstruction_loss : Fin B → ℝ
  kl_local : Fin B → ℝ
  kl_global : ℝ

/-- The line `nb_logits = (px_rate + 1e-4).log() - (theta + 1e-4).log()`
of `MyModule.loss`. -/
noncomputable def MyModule.lossNbLogits {B G : ℕ}
    (px_rate : Fin B → Fin G → ℝ) (theta : Fin G → ℝ) : Fin B → Fin G → ℝ :=
  fun b g => Real.log (px_rate b g + 1e-4) - Real.log (theta g + 1e-4)

/-- `MyModule.loss`: negative-binomial log-likelihood summed over features,
KL of `Normal(qz_m, sqrt(qz_v))` against `Normal(0, 1)` summed over latent
dimensions, `elbo = log_lik - kl_divergence`, and
`loss = torch.mean(-elbo)`. -/
noncomputable def MyModule.loss {B G L : ℕ} (x : Fin B → Fin G → ℝ)
    (inference_outputs : InferenceOutputs B L)
    (generative_outputs : GenerativeOutputs B G) : LossRecorder B :=
  let px_rate := generative_outputs.px_rate
  let theta := generative_outputs.theta
  let qz_m := inference_outputs.qz_m
  let qz_v := inference_outputs.qz_v
  let nb_logits := MyModule.lossNbLogits px_rate theta
  let log_lik : Fin B → ℝ :=
    fun b => ∑ g, NegativeBinomial.log_prob (theta g) (nb_logits b g) (x b g)
  let kl_divergence : Fin B → ℝ :=
    fun b => ∑ l, kl_normal_normal (qz_m b l) (Real.sqrt (qz_v b l)) 0 1
  let elbo : Fin B → ℝ := fun b => log_lik b - kl_divergence b
  let lossVal : ℝ := (∑ b, -elbo b) / (B : ℝ)
  { loss := lossVal
    reconstruction_loss := fun b => -log_lik b
    kl_local := kl_divergence
    kl_global := 0 }

/-- `MyPyroModule`: its `__init__` creates the same four attributes as
`MyModule.__init__` (decoder with softmax link, per-feature `log_theta`,
mean encoder with identity link, variance encoder with exp link). -/
structure MyPyroModule (n_input n_latent : ℕ) where
  decoder_params : NetParams n_latent n_input
  log_theta : Fin n_input → ℝ
  mean_encoder_params : NetParams n_input n_latent
  var_encoder_params : NetParams n_input n_latent

/-- `self.decoder = MyNeuralNet(n_latent, n_input, "softmax")` of
`MyPyroModule.__init__`. -/
def MyPyroModule.decoder {nI nL : ℕ} (P : MyPyroModule nI nL) :
    MyNeuralNet nL nI :=
  MyNeuralNet.init P.decoder_params "softmax"

/-- `self.mean_encoder = MyNeuralNet(n_input, n_latent, "none")` of
`MyPyroModule.__init__`. -/
def MyPyroModule.mean_encoder {nI nL : ℕ} (P : MyPyroModule nI nL) :
    MyNeuralNet nI nL :=
  MyNeuralNet.init P.mean_encoder_params "none"

/-- `self.var_encoder = MyNeuralNet(n_input, n_latent, "exp")` of
`MyPyroModule.__init__`. -/
def MyPyroModule.var_encoder {nI nL : ℕ} (P : MyPyroModule nI nL) :
    MyNeuralNet nI nL :=
  MyNeuralNet.init P.var_encoder_params "exp"

/-- `MyPyroModule._get_fn_args_from_batch`: returns the positional argument
tuple `(x, library)` with `library = torch.sum(x, dim=1, keepdim=True)` —
the raw row sums, not a log-scaled value. -/
noncomputable def MyPyroModule.get_fn_args_from_batch {B G : ℕ}
    (x : Fin B → Fin G → ℝ) : (Fin B → Fin G → ℝ) × (Fin B → ℝ) :=
  (x, fun b => ∑ g, x b g)

/-- The distributions and deterministic values declared by
`MyPyroModule.model` inside the `data` plate: the prior
`Normal(z_loc, z_scale)` over the latent, the decoded `px_scale`,
`px_rate`, `theta`, and the negative-binomial logits of the observation
distribution `NegativeBinomial(total_count=theta, logits=nb_logits)`. -/
structure PyroModelTrace (B G L : ℕ) where
  z_loc : Fin B → Fin L → ℝ
  z_scale : Fin B → Fin L → ℝ
  px_scale : Fin B → Fin G → ℝ
  px_rate : Fin B → Fin G → ℝ
  theta : Fin G → ℝ
  nb_logits : Fin B → Fin G → ℝ

/-- `MyPyroModule.model`: `z_loc = zeros`, `z_scale = ones`;
`z = pyro.sample("latent", Normal(z_loc, z_scale))` (the value is supplied
by the inference engine, here the explicit argument `z`);
`px_scale = decoder(z)`; `px_rate = library * px_scale`;
`theta = exp(log_theta)`;
`nb_logits = (px_rate + 1e-4).log() - (theta + 1e-4).log()`. -/
noncomputable def MyPyroModule.model {nI nL B : ℕ} (P : MyPyroModule nI nL)
    (x : Fin B → Fin nI → ℝ) (library : Fin B → ℝ)
    (z : Fin B → Fin nL → ℝ) : PyroModelTrace B nI nL :=
  let z_loc : Fin B → Fin nL → ℝ := fun _ _ => 0
  let z_scale : Fin B → Fin nL → ℝ := fun _ _ => 1
  let px_scale : Fin B → Fin nI → ℝ := fun b => P.decoder.forward (z b)
  let px_rate : Fin B → Fin nI → ℝ := fun b g => library b * px_scale b g
  let theta : Fin nI → ℝ := fun g => Real.exp (P.log_theta g)
  let nb_logits : Fin B → Fin nI → ℝ :=
    fun b g => Real.log (px_rate b g + 1e-4) - Real.log (theta g + 1e-4)
  { z_loc := z_loc, z_scale := z_scale, px_scale := px_scale
    px_rate := px_rate, theta := theta, nb_logits := nb_logits }

/-- The variational distribution `Normal(qz_m, sqrt(qz_v))` declared by
`pyro.sample("latent", ...)` inside `MyPyroModule.guide`. -/
structure PyroGuideTrace (B L : ℕ) where
  loc : Fin B → Fin L → ℝ
  scale : Fin B → Fin L → ℝ

/-- `MyPyroModule.guide(self, x, log_library)`: `x_ = log(1 + x)`;
`qz_m = mean_encoder(x_)`; `qz_v = var_encoder(x_)`; declares
`Normal(qz_m, sqrt(qz_v))` for the latent.  The second positional
argument `log_library` never occurs in the body. -/
noncomputable def MyPyroModule.guide {nI nL B : ℕ} (P : MyPyroModule nI nL)
    (x : Fin B → Fin nI → ℝ) (log_library : Fin B → ℝ) :
    PyroGuideTrace B nL :=
  let x_ : Fin B → Fin nI → ℝ := fun b g => Real.log (1 + x b g)
  let qz_m : Fin B → Fin nL → ℝ := fun b => P.mean_encoder.forward (x_ b)
  let qz_v : Fin B → Fin nL → ℝ := fun b => P.var_encoder.forward (x_ b)
  { loc := qz_m, scale := fun b l => Real.sqrt (qz_v b l) }

/-- State-passing form of `MyModule.inference`: Python methods may mutate
`self`, so a faithful embedding of a method returns the (possibly updated)
parameter state next to its outputs.  The body of `inference` contains no
assignment to any attribute of `self`, so the state component is returned
unchanged. -/
noncomputable def MyModule.inferenceStep {nI nL B : ℕ} (M : MyModule nI nL)
    (x : Fin B → Fin nI → ℝ) (noise : Fin B → Fin nL → ℝ) :
    MyModule nI nL × InferenceOutputs B nL :=
  (M, M.inference x noise)

/-- State-passing form of `MyModule.generative`; the body contains no
assignment to any attribute of `self`. -/
noncomputable def MyModule.generativeStep {nI nL B : ℕ} (M : MyModule nI nL)
    (z : Fin B → Fin nL → ℝ) (library : Fin B → ℝ) :
    MyModule nI nL × GenerativeOutputs B nI :=
  (M, M.generative z library)

/-- State-passing form of `MyModule.loss`; the body reads only the tensors
handed to it and contains no assignment to any attribute of `self`. -/
noncomputable def MyModule.lossStep {nI nL B L : ℕ} (M : MyModule nI nL)
    (x : Fin B → Fin nI → ℝ) (inference_outputs : InferenceOutputs B L)
    (generative_outputs : GenerativeOutputs B nI) :
    MyModule nI nL × LossRecorder B :=
  (M, MyModule.loss x inference_outputs generative_outputs)

/-- All-zero layer parameters, used to instantiate concrete witnesses. -/
def zeroNet (nIn nOut : ℕ) : NetParams nIn nOut :=
  { W1 := fun _ _ => 0, b1 := fun _ => 0, W2 := fun _ _ => 0, b2 := fun _ => 0 }

/-- A concrete `MyModule` with all-zero parameters. -/
def zeroModule (nI nL : ℕ) : MyModule nI nL :=
  { decoder_params := zeroNet nL nI, log_theta := fun _ => 0
    mean_encoder_params := zeroNet nI nL, var_encoder_params := zeroNet nI nL }

/-- C3: `MyModule.inference` computes `qz_mean` as the raw (identity-link)
mean-encoder output on `log(1 + x)`, `qz_var` as the exponential of the
variance-encoder body on `log(1 + x)`, and the reparameterized sample
`z = qz_mean + sqrt(qz_var) * noise`, returning exactly these three
fields. -/
theorem inference_formula {nI nL B : ℕ} (M : MyModule nI nL)
    (x : Fin B → Fin nI → ℝ) (noise : Fin B → Fin nL → ℝ) :
    (M.inference x noise).qz_m
      = (fun b => M.mean_encoder_params.apply (fun g => Real.log (1 + x b g)))
    ∧ (M.inference x noise).qz_v
      = (fun b l => Real.exp
          (M.var_encoder_params.apply (fun g => Real.log (1 + x b g)) l))
    ∧ (M.inference x noise).z
      = fun b l => (M.inference x noise).qz_m b l
          + Real.sqrt ((M.inference x noise).qz_v b l) * noise b l :=
  ⟨rfl, rfl, rfl⟩

/-- C8: `MyPyroModule.guide` performs the same computation whatever is
passed as its second positional argument `log_library` — the declared
variational Normal does not depend on it — even though
`_get_fn_args_from_batch` always passes the raw row sums of `x` as that
argument. -/
theorem guide_ignores_second_argument {nI nL B : ℕ} (P : MyPyroModule nI nL)
    (x : Fin B → Fin nI → ℝ) (a b : Fin B → ℝ) :
    P.guide x a = P.guide x b
    ∧ (MyPyroModule.get_fn_args_from_batch x).2 = fun r => ∑ g, x r g :=
  ⟨rfl, rfl⟩

/-- C9: in the state-passing embedding of the `MyModule` methods, the
parameter state (weights and biases of the three networks and the
`log_theta` vector) after any call to `inference`, `generative`, or
`loss` equals the state before it: the method bodies contain no
assignment to the module's attributes. -/
theorem routines_preserve_parameters {nI nL B L : ℕ} (M : MyModule nI nL)
    (x : Fin B → Fin nI → ℝ) (noise : Fin B → Fin nL → ℝ)
    (z : Fin B → Fin nL → ℝ) (library : Fin B → ℝ)
    (io : InferenceOutputs B L) (go : GenerativeOutputs B nI) :
    (M.inferenceStep x noise).1 = M
    ∧ (M.generativeStep z library).1 = M
    ∧ (M.lossStep x io go).1 = M :=
  ⟨rfl, rfl, rfl⟩

/-- C1: with the same parameter values, the same batch `x` (library taken
as the row sums of `x`), and the same fixed latent draw `z`, the manual
pipeline (`inference` / `_get_generative_input` / `generative` / the
`nb_logits` line of `loss`) and the Pyro pipeline (`model` with the
arguments produced by `_get_fn_args_from_batch`, and `guide`) compute the
same `px_rate`, the same `theta`, the same negative-binomial logits, and
the same variational family
`Normal(mean_encoder(log(1+x)), sqrt(var_encoder(log(1+x))))`. -/
theorem manual_and_pyro_pipelines_agree {nI nL B : ℕ}
    (d : NetParams nL nI) (lt : Fin nI → ℝ) (me ve : NetParams nI nL)
    (x : Fin B → Fin nI → ℝ) (z : Fin B → Fin nL → ℝ)
    (noise : Fin B → Fin nL → ℝ) :
    let M : MyModule nI nL := ⟨d, lt, me, ve⟩
    let P : MyPyroModule nI nL := ⟨d, lt, me, ve⟩
    let args := MyPyroModule.get_fn_args_from_batch x
    let tr := P.model args.1 args.2 z
    let gi := MyModule.get_generative_input x (M.inference x noise)
    let go := M.generative z gi.library
    tr.px_rate = go.px_rate
    ∧ tr.theta = go.theta
    ∧ tr.nb_logits = MyModule.lossNbLogits go.px_rate go.theta
    ∧ (P.guide x args.2).loc = (M.inference x noise).qz_m
    ∧ (P.guide x args.2).scale
        = fun b l => Real.sqrt ((M.inference x noise).qz_v b l) :=
  ⟨rfl, rfl, rfl, rfl, rfl⟩

/-- C10: for any `link_var` string other than `"softmax"` and `"exp"`
(not just `"none"`), `MyNeuralNet.__init__` succeeds, leaves
`transformation` as `None`, and `forward` returns the raw affine output
unchanged; the string is never validated. -/
theorem unknown_link_var_identity {nIn nOut : ℕ} (p : NetParams nIn nOut)
    (s : String) (h1 : s ≠ "softmax") (h2 : s ≠ "exp") :
    (MyNeuralNet.init p s).transformation = Transformation.none
    ∧ ∀ x : Fin nIn → ℝ, (MyNeuralNet.init p s).forward x = p.apply x := by
  have ht : (MyNeuralNet.init p s).transformation = Transformation.none := by
    simp [MyNeuralNet.init, h1, h2]
  refine ⟨ht, fun x => ?_⟩
  show (MyNeuralNet.init p s).transformation.apply
      ((MyNeuralNet.init p s).neural_net.apply x) = p.apply x
  rw [ht]
  rfl

/-- Witness for C10 at the concrete invalid configuration `"tanh"`. -/
theorem unknown_link_var_identity_witness :
    (("tanh" : String) ≠ "softmax" ∧ ("tanh" : String) ≠ "exp")
    ∧ ((MyNeuralNet.init (zeroNet 1 1) "tanh").transformation = Transformation.none
       ∧ ∀ x : Fin 1 → ℝ,
          (MyNeuralNet.init (zeroNet 1 1) "tanh").forward x = (zeroNet 1 1).apply x) :=
  ⟨⟨by decide, by decide⟩,
    unknown_link_var_identity (zeroNet 1 1) "tanh" (by decide) (by decide)⟩

/-- A softmax row sums to 1 whenever there is at least one feature. -/
lemma softmaxRow_sum_one {n : ℕ} (hn : 0 < n) (v : Fin n → ℝ) :
    ∑ i, softmaxRow v i = 1 := by
  have : Nonempty (Fin n) := ⟨⟨0, hn⟩⟩
  have hS : 0 < ∑ j, Real.exp (v j) :=
    Finset.sum_pos (fun j _ => Real.exp_pos _) Finset.univ_nonempty
  unfold softmaxRow
  rw [← Finset.sum_div, div_self hS.ne']

/-- Every softmax entry is non-negative. -/
lemma softmaxRow_nonneg {n : ℕ} (v : Fin n → ℝ) (i : Fin n) :
    0 ≤ softmaxRow v i := by
  have : Nonempty (Fin n) := ⟨i⟩
  have hS : 0 < ∑ j, Real.exp (v j) :=
    Finset.sum_pos (fun j _ => Real.exp_pos _) Finset.univ_nonempty
  exact div_nonneg (Real.exp_pos _).le hS.le

/-- The torch KL formula against the standard normal, at scale
`sqrt v`, reduces to the closed form `0.5 * (v + m^2 - 1 - log v)`. -/
lemma kl_normal_normal_sqrt (m v : ℝ) (hv : 0 < v) :
    kl_normal_normal m (Real.sqrt v) 0 1
      = 0.5 * (v + m ^ 2 - 1 - Real.log v) := by
  simp only [kl_normal_normal, div_one, sub_zero, Real.sq_sqrt hv.le]

/-- The closed-form KL term is non-negative for every positive variance. -/
lemma kl_closed_nonneg (m v : ℝ) (hv : 0 < v) :
    0 ≤ 0.5 * (v + m ^ 2 - 1 - Real.log v) := by
  have h := Real.log_le_sub_one_of_pos hv
  nlinarith [sq_nonneg m]

/-- C5: the per-latent-dimension KL term `kl_normal_normal` used by
`MyModule.loss` between `Normal(qz_mean, sqrt(qz_var))` and the standard
normal equals `0.5 * (qz_var + qz_mean^2 - 1 - log qz_var)`; it is
non-negative for every valid pair, and exactly 0 at the standard
normal itself. -/
theorem kl_term_closed_form (m v : ℝ) (hv : 0 < v) :
    kl_normal_normal m (Real.sqrt v) 0 1
      = 0.5 * (v + m ^ 2 - 1 - Real.log v)
    ∧ 0 ≤ kl_normal_normal m (Real.sqrt v) 0 1
    ∧ kl_normal_normal 0 (Real.sqrt 1) 0 1 = 0 := by
  have h1 := kl_normal_normal_sqrt m v hv
  refine ⟨h1, h1 ▸ kl_closed_nonneg m v hv, ?_⟩
  rw [kl_normal_normal_sqrt 0 1 one_pos]
  norm_num

/-- Witness for C5 at the standard-normal input `(0, 1)`. -/
theorem kl_term_closed_form_witness :
    (0 : ℝ) < 1
    ∧ (kl_normal_normal 0 (Real.sqrt 1) 0 1
        = 0.5 * (1 + (0 : ℝ) ^ 2 - 1 - Real.log 1)
       ∧ 0 ≤ kl_normal_normal 0 (Real.sqrt 1) 0 1
       ∧ kl_normal_normal 0 (Real.sqrt 1) 0 1 = 0) :=
  ⟨one_pos, kl_term_closed_form 0 1 one_pos⟩

/-- C4: with at least one feature, each row of the decoder output
`px_scale` produced by `MyModule.generative` sums to 1 (softmax), and
each row of `px_rate = library * px_scale` sums to the row's library. -/
theorem generative_row_sums {nI nL B : ℕ} (hG : 0 < nI) (M : MyModule nI nL)
    (z : Fin B → Fin nL → ℝ) (library : Fin B → ℝ) :
    (∀ b, ∑ g, (M.generative z library).px_scale b g = 1)
    ∧ (∀ b, ∑ g, (M.generative z library).px_rate b g = library b) := by
  have hscale : ∀ b, ∑ g, (M.generative z library).px_scale b g = 1 := by
    intro b
    show ∑ g, softmaxRow (M.decoder_params.apply (z b)) g = 1
    exact softmaxRow_sum_one hG _
  refine ⟨hscale, fun b => ?_⟩
  show ∑ g, library b * (M.generative z library).px_scale b g = library b
  rw [← Finset.mul_sum, hscale b, mul_one]

/-- Witness for C4 with one feature, one latent dimension, one row,
all-zero weights, library 5. -/
theorem generative_row_sums_witness :
    0 < 1
    ∧ ((∀ b : Fin 1, ∑ g, ((zeroModule 1 1).generative
          (fun _ _ => (0 : ℝ)) (fun _ => (5 : ℝ))).px_scale b g = 1)
       ∧ (∀ b : Fin 1, ∑ g, ((zeroModule 1 1).generative
          (fun _ _ => (0 : ℝ)) (fun _ => (5 : ℝ))).px_rate b g = 5)) :=
  ⟨Nat.one_pos,
    generative_row_sums Nat.one_pos (zeroModule 1 1)
      (fun _ _ => (0 : ℝ)) (fun _ => (5 : ℝ))⟩

/-- C7: `qz_var` returned by `MyModule.inference` is strictly positive in
every entry (exponential link), `theta` returned by `MyModule.generative`
is strictly positive in every entry (image of exp), and every entry of
`px_rate` is non-negative whenever `library` is non-negative. -/
theorem positivity_invariants {nI nL B : ℕ} (M : MyModule nI nL)
    (x : Fin B → Fin nI → ℝ) (noise : Fin B → Fin nL → ℝ)
    (z : Fin B → Fin nL → ℝ) (library : Fin B → ℝ) :
    (∀ b l, 0 < (M.inference x noise).qz_v b l)
    ∧ (∀ g, 0 < (M.generative z library).theta g)
    ∧ ((∀ b, 0 ≤ library b) →
        ∀ b g, 0 ≤ (M.generative z library).px_rate b g) := by
  refine ⟨fun b l => ?_, fun g => ?_, fun hlib b g => ?_⟩
  · exact Real.exp_pos _
  · exact Real.exp_pos _
  · show 0 ≤ library b * softmaxRow (M.decoder_params.apply (z b)) g
    exact mul_nonneg (hlib b) (softmaxRow_nonneg _ g)

/-- Witness for C7 with all-zero parameters, zero inputs, library 2. -/
theorem positivity_invariants_witness :
    (∀ _b : Fin 1, (0 : ℝ) ≤ 2)
    ∧ ((∀ b l : Fin 1,
          0 < ((zeroModule 1 1).inference (fun (_ _ : Fin 1) => (0 : ℝ))
            (fun (_ _ : Fin 1) => 0)).qz_v b l)
       ∧ (∀ g : Fin 1, 0 < ((zeroModule 1 1).generative
            (fun (_ _ : Fin 1) => (0 : ℝ)) (fun (_ : Fin 1) => (2 : ℝ))).theta g)
       ∧ (∀ b g : Fin 1, 0 ≤ ((zeroModule 1 1).generative
            (fun (_ _ : Fin 1) => (0 : ℝ)) (fun (_ : Fin 1) => (2 : ℝ))).px_rate b g)) := by
  have T := positivity_invariants (zeroModule 1 1) (fun (_ _ : Fin 1) => (0 : ℝ))
    (fun (_ _ : Fin 1) => 0) (fun (_ _ : Fin 1) => (0 : ℝ)) (fun (_ : Fin 1) => (2 : ℝ))
  exact ⟨fun _ => by norm_num, T.1, T.2.1, T.2.2 (fun _ => by norm_num)⟩

/-- C2: `MyModule.loss` forms `nb_logits = log(px_rate + 1e-4) -
log(theta + 1e-4)`, sums the negative-binomial log-likelihood of `x` over
features and the closed-form KL of `Normal(qz_mean, sqrt(qz_var))` from
the standard normal over latent dimensions, and returns as scalar loss the
negative mean over the batch of `log_likelihood - kl_divergence` (the
per-row pieces are also recorded unreduced). -/
theorem loss_elbo_formula {B G L : ℕ} (x : Fin B → Fin G → ℝ)
    (io : InferenceOutputs B L) (go : GenerativeOutputs B G)
    (hv : ∀ b l, 0 < io.qz_v b l) :
    (MyModule.loss x io go).loss
      = -(∑ b, ((∑ g, NegativeBinomial.log_prob (go.theta g)
          (Real.log (go.px_rate b g + 1e-4) - Real.log (go.theta g + 1e-4))
          (x b g))
        - ∑ l, 0.5 * (io.qz_v b l + io.qz_m b l ^ 2 - 1
            - Real.log (io.qz_v b l)))) / (B : ℝ)
    ∧ (∀ b, (MyModule.loss x io go).reconstruction_loss b
        = -∑ g, NegativeBinomial.log_prob (go.theta g)
            (Real.log (go.px_rate b g + 1e-4) - Real.log (go.theta g + 1e-4))
            (x b g))
    ∧ (∀ b, (MyModule.loss x io go).kl_local b
        = ∑ l, 0.5 * (io.qz_v b l + io.qz_m b l ^ 2 - 1
            - Real.log (io.qz_v b l))) := by
  have hkl : ∀ b : Fin B,
      (∑ l, kl_normal_normal (io.qz_m b l) (Real.sqrt (io.qz_v b l)) 0 1)
        = ∑ l, 0.5 * (io.qz_v b l + io.qz_m b l ^ 2 - 1
            - Real.log (io.qz_v b l)) :=
    fun b => Finset.sum_congr rfl fun l _ => kl_normal_normal_sqrt _ _ (hv b l)
  refine ⟨?_, fun b => rfl, fun b => hkl b⟩
  calc (MyModule.loss x io go).loss
      = (∑ b, -((∑ g, NegativeBinomial.log_prob (go.theta g)
          (Real.log (go.px_rate b g + 1e-4) - Real.log (go.theta g + 1e-4))
          (x b g))
          - ∑ l, kl_normal_normal (io.qz_m b l) (Real.sqrt (io.qz_v b l)) 0 1))
          / (B : ℝ) := rfl
    _ = -(∑ b, ((∑ g, NegativeBinomial.log_prob (go.theta g)
          (Real.log (go.px_rate b g + 1e-4) - Real.log (go.theta g + 1e-4))
          (x b g))
          - ∑ l, kl_normal_normal (io.qz_m b l) (Real.sqrt (io.qz_v b l)) 0 1))
          / (B : ℝ) := by rw [Finset.sum_neg_distrib]
    _ = -(∑ b, ((∑ g, NegativeBinomial.log_prob (go.theta g)
          (Real.log (go.px_rate b g + 1e-4) - Real.log (go.theta g + 1e-4))
          (x b g))
          - ∑ l, 0.5 * (io.qz_v b l + io.qz_m b l ^ 2 - 1
              - Real.log (io.qz_v b l)))) / (B : ℝ) := by
        congr 2
        exact Finset.sum_congr rfl fun b _ => by rw [hkl b]

/-- Concrete inference outputs used by the C2 witness. -/
def ioW : InferenceOutputs 1 1 :=
  { qz_m := fun _ _ => 0, qz_v := fun _ _ => 1, z := fun _ _ => 0 }

/-- Concrete generative outputs used by the C2 witness. -/
def goW : GenerativeOutputs 1 1 :=
  { px_scale := fun _ _ => 1, theta := fun _ => 1, px_rate := fun _ _ => 1 }

/-- Witness for C2 on a one-row, one-feature, one-latent-dimension batch. -/
theorem loss_elbo_formula_witness :
    (∀ b l : Fin 1, 0 < ioW.qz_v b l)
    ∧ ((MyModule.loss (fun (_ _ : Fin 1) => (0 : ℝ)) ioW goW).loss
        = -(∑ b : Fin 1, ((∑ g, NegativeBinomial.log_prob (goW.theta g)
            (Real.log (goW.px_rate b g + 1e-4) - Real.log (goW.theta g + 1e-4))
            ((fun (_ _ : Fin 1) => (0 : ℝ)) b g))
          - ∑ l, 0.5 * (ioW.qz_v b l + ioW.qz_m b l ^ 2 - 1
              - Real.log (ioW.qz_v b l)))) / ((1 : ℕ) : ℝ)
       ∧ (∀ b, (MyModule.loss (fun (_ _ : Fin 1) => (0 : ℝ)) ioW goW).reconstruction_loss b
          = -∑ g, NegativeBinomial.log_prob (goW.theta g)
              (Real.log (goW.px_rate b g + 1e-4) - Real.log (goW.theta g + 1e-4))
              ((fun (_ _ : Fin 1) => (0 : ℝ)) b g))
       ∧ (∀ b, (MyModule.loss (fun (_ _ : Fin 1) => (0 : ℝ)) ioW goW).kl_local b
          = ∑ l, 0.5 * (ioW.qz_v b l + ioW.qz_m b l ^ 2 - 1
              - Real.log (ioW.qz_v b l)))) :=
  ⟨fun _ _ => one_pos,
    loss_elbo_formula (fun (_ _ : Fin 1) => (0 : ℝ)) ioW goW (fun _ _ => one_pos)⟩

/-- C6: on an all-zero 2 x 100 count batch with 10 latent dimensions,
`_get_generative_input` produces `library = 0` for every row, `generative`
produces `px_rate = 0` everywhere, and the arguments of the logarithms
taken by the loss routine (`px_rate + 1e-4` and `theta + 1e-4`) are
strictly positive, so no `log(0)` occurs and the log-likelihood and
scalar loss are well-defined real numbers. -/
theorem all_zero_batch_safe (M : MyModule 100 10) (noise : Fin 2 → Fin 10 → ℝ) :
    let x : Fin 2 → Fin 100 → ℝ := fun _ _ => 0
    let gi := MyModule.get_generative_input x (M.inference x noise)
    let go := M.generative gi.z gi.library
    (∀ b, gi.library b = 0)
    ∧ (∀ b g, go.px_rate b g = 0)
    ∧ (∀ b g, 0 < go.px_rate b g + 1e-4 ∧ 0 < go.theta g + 1e-4) := by
  intro x gi go
  have hlib : ∀ b, gi.library b = 0 := fun b => by
    show ∑ _g : Fin 100, (0 : ℝ) = 0
    simp
  have hrate : ∀ b g, go.px_rate b g = 0 := fun b g => by
    show gi.library b * softmaxRow (M.decoder_params.apply (gi.z b)) g = 0
    rw [hlib b, zero_mul]
  refine ⟨hlib, hrate, fun b g => ⟨?_, ?_⟩⟩
  · rw [hrate b g]; norm_num
  · have h1 : 0 < go.theta g := Real.exp_pos _
    have h2 : (0 : ℝ) < 1e-4 := by norm_num
    linarith
